import Mathlib

/-!
Shallow embedding of the Digitra and Foxbit exchange connectors
(`hummingbot/connector/exchange/digitra`, `hummingbot/connector/exchange/foxbit`)
and proofs about the behaviour of their credential provider, URL builders,
message classifiers, order-lifecycle reconciler and cancel/place paths.

Conventions used throughout:
- `Decimal` amounts are embedded as `ℚ`; timestamps as `ℤ` (already parsed:
  `dateutil.parser.isoparse(...).timestamp()` is abstracted by carrying the
  parsed value in the records).
- A Python function that can raise is embedded as `Except String _`; the
  string is a description of the raised exception.
- JSON objects reaching a handler are embedded either as association lists
  (`.get` is `List.lookup`, `[...]` access is a lookup whose failure raises
  `KeyError`) or as structures listing exactly the members the code reads.
- Calls into host-framework collaborators (order tracker, logger) are
  recorded as effect values in the order the code performs them.
-/

namespace Connector

/-- Order lifecycle states (the members of hummingbot `OrderState` used by
these connectors). -/
inductive OrderState where
  | PendingCreate
  | Open
  | PendingCancel
  | Canceled
  | PartiallyFilled
  | Filled
  | Failed
  | PendingApproval
deriving DecidableEq, Repr

end Connector

namespace Digitra

/-! ### digitra_constants.py -/

def DEFAULT_DOMAIN : String := "digitra"

def REST_SUBDOM_TRADE : String := "trade"

def REST_SUBDOM_BALANCE : String := "balance"

/-- The `REST_URL` dict; indexing with a missing domain is a `KeyError`,
hence `Option`. -/
def REST_URL (domain : String) : Option String :=
  if domain = "digitra" then some "https://{0}.api.digitra.com/"
  else if domain = "digitra_testnet" then some "https://{0}.stg-hb.cloud.digitra.com/"
  else none

def PUBLIC_API_VERSION : String := "v1"

def PRIVATE_API_VERSION : String := "v1"

def API_HEALTH_CHECK_PATH : String := "/health-check"

def API_ALL_MARKETS_PATH : String := "/markets"

def API_MARKET_PATH : String := "/markets/{market_symbol}"

def API_BALANCES_PATH : String := "/balances"

def API_ORDERS_PATH : String := "/orders"

def API_ORDER_PATH : String := "/orders/{order_id}"

/-- `ENDPOINT_SUBDOM_MAP` as an ordered association list (Python dicts keep
insertion order, which the lookup loop below relies on). -/
def ENDPOINT_SUBDOM_MAP : List (String × String) :=
  [(API_HEALTH_CHECK_PATH, REST_SUBDOM_TRADE),
   (API_MARKET_PATH, REST_SUBDOM_TRADE),
   (API_ALL_MARKETS_PATH, REST_SUBDOM_TRADE),
   (API_ORDERS_PATH, REST_SUBDOM_TRADE),
   (API_BALANCES_PATH, REST_SUBDOM_BALANCE)]

/-- Python `str.__contains__`: substring test. -/
def strContains (s pat : String) : Bool := decide (pat.data <:+: s.data)

/-- `endpoint_subdomain`: first map entry whose key occurs in the path wins;
no entry matching raises `Exception("Missing endpoint subdomain mapping")`. -/
def endpoint_subdomain (path : String) : Except String String :=
  match ENDPOINT_SUBDOM_MAP.find? (fun kv => strContains path kv.1) with
  | some kv => .ok kv.2
  | none => .error "Missing endpoint subdomain mapping"

/-! ### digitra_web_utils.py -/

/-- Python `str.format` positional substitution applied to the `REST_URL`
templates (the single `\x7b0\x7d` placeholder is replaced by the subdomain). -/
def formatSub (template sub : String) : String := template.replace "{0}" sub

/-- `digitra_web_utils.public_rest_url`. -/
def public_rest_url (path_url : String) (domain : String) : Except String String := do
  let sub ← endpoint_subdomain path_url
  match REST_URL domain with
  | some base => .ok (formatSub base sub ++ PUBLIC_API_VERSION ++ path_url)
  | none => .error "KeyError: domain"

/-- `digitra_web_utils.private_rest_url`. -/
def private_rest_url (path_url : String) (domain : String) : Except String String := do
  let sub ← endpoint_subdomain path_url
  match REST_URL domain with
  | some base => .ok (formatSub base sub ++ PRIVATE_API_VERSION ++ path_url)
  | none => .error "KeyError: domain"

/-! ### digitra_auth.py — DigitraAuth -/

/-- A JWT as stored by `DigitraAuth._set_jwt`: the raw encoded string
(`self._jwt`) together with the claims the code decodes from it
(`self._next_exp_time`, `self._client_id`). -/
structure Jwt where
  token : String
  exp : ℤ
  client_id : String
deriving DecidableEq, Repr

/-- The mutable credential state of a `DigitraAuth` instance: the stored JWT
and the optional refresh token. -/
structure AuthState where
  jwt : Jwt
  refresh_token : Option String
deriving DecidableEq, Repr

/-- `DigitraAuth.__ensure_valid_jwt` run by a single caller to completion with
no interleaving (the semantics of `get_jwt` when no other task runs).
`now` is `time.time()`; `fresh` is the token the auth server returns for a
refresh round-trip (already decoded, as `_set_jwt` does). Returns the token
handed to the caller, the credential state afterwards, and the number of
refresh network round-trips issued, or `.error` if the call raised. -/
def ensure_valid_jwt (now : ℤ) (fresh : Jwt) (st : AuthState) :
    Except String (Jwt × AuthState × ℕ) :=
  if st.jwt.exp > now then .ok (st.jwt, st, 0)
  else
    match st.refresh_token with
    | none => .error "JWT is expired and no refresh_token has been provided"
    | some _ => .ok (fresh, { st with jwt := fresh }, 1)

/-- The phase a concurrent `get_jwt` caller is in, between the suspension
points of `__ensure_valid_jwt`: `start` = about to run the expiry check;
`awaitingRefresh` = suspended in the refresh HTTP round-trip
(`session.post` / `await response.json()`); `doneOk` / `doneErr` =
returned / raised. -/
inductive CallerPhase where
  | start
  | awaitingRefresh
  | doneOk (tok : Jwt)
  | doneErr
deriving DecidableEq, Repr

/-- Shared state seen by all concurrent `get_jwt` callers: the credential
state of the single `DigitraAuth` instance, plus a count of refresh network
round-trips issued so far. -/
structure World where
  auth : AuthState
  refreshes : ℕ
deriving DecidableEq, Repr

/-- One atomic segment of `__ensure_valid_jwt` under cooperative (asyncio)
scheduling: code between suspension points runs atomically, and the method
takes no lock, so the expiry check and the state update after the refresh
round-trip are separate atomic segments. In `start`, an expired token with a
refresh token present issues the refresh round-trip (counted here) and
suspends; in `awaitingRefresh`, the response arrives and `_set_jwt` stores
the fresh token. -/
def jwtStep (now : ℤ) (fresh : Jwt) (w : World) (p : CallerPhase) :
    World × CallerPhase :=
  match p with
  | .start =>
      if w.auth.jwt.exp > now then (w, .doneOk w.auth.jwt)
      else
        match w.auth.refresh_token with
        | none => (w, .doneErr)
        | some _ => ({ w with refreshes := w.refreshes + 1 }, .awaitingRefresh)
  | .awaitingRefresh =>
      ({ w with auth := { w.auth with jwt := fresh } }, .doneOk fresh)
  | p => (w, p)

/-- Run one `jwtStep` for each caller in the list, left to right, threading
the shared world through. -/
def runPhase (now : ℤ) (fresh : Jwt) : World → List CallerPhase → World × List CallerPhase
  | w, [] => (w, [])
  | w, p :: ps =>
      let step := jwtStep now fresh w p
      let rest := runPhase now fresh step.1 ps
      (rest.1, step.2 :: rest.2)

/-- The schedule in which `n` concurrent `get_jwt` callers all run their
expiry-check segment before any refresh response arrives, then each caller
resumes: the interleaving asyncio produces when the callers are started
together against a slow auth server. -/
def runConcurrentGetJwt (now : ℤ) (fresh : Jwt) (n : ℕ) (w : World) :
    World × List CallerPhase :=
  let first := runPhase now fresh w (List.replicate n .start)
  runPhase now fresh first.1 first.2

/-! ### digitra_constants.py — ORDER_STATE_MAPPING -/

/-- `ORDER_STATE_MAPPING` (dict lookup: a missing key is a `KeyError`). -/
def ORDER_STATE_MAPPING (s : String) : Option Connector.OrderState :=
  if s = "SUBMITTING" then some .PendingCreate
  else if s = "OPEN" then some .Open
  else if s = "PENDING_CANCELING" then some .PendingCancel
  else if s = "CANCELED" then some .Canceled
  else if s = "PARTIALLY_FILLED" then some .PartiallyFilled
  else if s = "FILLED" then some .Filled
  else if s = "PENDING_BALANCE" then some .PendingApproval
  else if s = "CANCELED_PENDING_BALANCE" then some .Failed
  else none

/-! ### digitra_exchange.py — order lifecycle reconciler -/

/-- A `TradeUpdate` / recorded fill: the fields of
`hummingbot.core.data_type.in_flight_order.TradeUpdate` these connectors
read and write. `fill_timestamp` carries the parsed `isoparse(...)` value
and `trade_id` the formatted `f"..."` string. -/
structure TradeUpdate where
  trade_id : String
  fill_base_amount : ℚ
  fill_quote_amount : ℚ
  fill_price : ℚ
  fill_timestamp : ℤ
deriving DecidableEq, Repr

/-- An `OrderUpdate` as constructed by the reconciler (fields the claims
are about). -/
structure OrderUpdate where
  new_state : Connector.OrderState
  client_order_id : String
  exchange_order_id : Option String
  update_timestamp : ℤ
deriving DecidableEq, Repr

/-- The slice of an `InFlightOrder` the reconciler reads: identity fields and
the fills already recorded on it (`order.order_fills.values()`). -/
structure InFlightOrder where
  client_order_id : String
  exchange_order_id : Option String
  trading_pair : String
  creation_timestamp : ℤ
  last_update_timestamp : ℤ
  order_fills : List TradeUpdate
deriving DecidableEq, Repr

/-- `reduce(lambda acc, v: acc + v.fill_base_amount, order.order_fills.values(), 0)` —
the sum of fill amounts already recorded on the order. -/
def inFlightFilledAmount (fills : List TradeUpdate) : ℚ :=
  fills.foldl (fun acc v => acc + v.fill_base_amount) 0

/-- The fields of the `data` object of an `orders`-channel `update` event that
`_user_stream_event_listener` reads (`createdAt` carried parsed). -/
structure WsOrderData where
  id : String
  filledSize : ℚ
  avgFillPrice : ℚ
  createdAt : ℤ
  status : String
deriving DecidableEq, Repr

/-- Body of `_user_stream_event_listener` for a `type == "update"`,
`channel == "orders"` event matching the tracked fillable order `order`.
`now` abstracts `time.time()`. Returns the trade updates passed to
`process_trade_update` and, if constructing the `OrderUpdate` did not raise
(`ORDER_STATE_MAPPING[data["status"]]` is a `KeyError` on an unknown status,
caught by the loop's generic handler after the trade update was already
processed), the order update passed to `process_order_update`. -/
def user_stream_order_update (order : InFlightOrder) (data : WsOrderData)
    (now : ℤ) : List TradeUpdate × Option OrderUpdate :=
  let current_filled := data.filledSize
  let in_flight_filled := inFlightFilledAmount order.order_fills
  let missing_filled := current_filled - in_flight_filled
  let trades :=
    if missing_filled > 0 then
      [{ trade_id := data.id ++ "-" ++ toString now,
         fill_base_amount := data.filledSize,
         fill_quote_amount := data.filledSize * data.avgFillPrice,
         fill_price := data.avgFillPrice,
         fill_timestamp := data.createdAt }]
    else []
  let update := (ORDER_STATE_MAPPING data.status).map fun st =>
    { new_state := st,
      client_order_id := order.client_order_id,
      exchange_order_id := some data.id,
      update_timestamp := now : OrderUpdate }
  (trades, update)

/-- The `order_status["result"]` object of the order-status endpoint as read
by `_all_trade_updates_for_order` and `_request_order_status` (`updated_at`
carried parsed). -/
structure OrderStatusResult where
  id : String
  custom_id : String
  status : String
  filled : ℚ
  filled_weighted_price : ℚ
  fee : ℚ
  updated_at : ℤ
deriving DecidableEq, Repr

/-- The body returned by `_api_get` for the order-status endpoint: either a
JSON object with a `"result"` member, or some other body (such as
`\x7b"msg": "Not found"\x7d`) whose optional `"msg"` member is carried. -/
inductive StatusEnvelope where
  | resultEnv (r : OrderStatusResult)
  | otherEnv (msg : Option String)
deriving DecidableEq, Repr

/-- Calls into the order tracker / logger recorded while a reconciler
function runs. -/
inductive Effect where
  | processOrderUpdate (u : OrderUpdate)
  | processTradeUpdate (t : TradeUpdate)
  | processOrderNotFound (client_order_id : String)
  | logError
deriving DecidableEq, Repr

/-- `_all_trade_updates_for_order`, fill-derivation part, after a status fetch
that returned `result` (the only path on which the function builds trade
updates). `now` abstracts `time.time()`. -/
def all_trade_updates_for_order (order : InFlightOrder) (r : OrderStatusResult)
    (now : ℤ) : List TradeUpdate :=
  let in_flight_filled := inFlightFilledAmount order.order_fills
  let current_filled := r.filled
  let missing_filled := current_filled - in_flight_filled
  if missing_filled > 0 then
    [{ trade_id := r.id ++ "-" ++ toString now,
       fill_base_amount := missing_filled,
       fill_quote_amount := missing_filled * r.filled_weighted_price,
       fill_price := r.filled_weighted_price,
       fill_timestamp := r.updated_at }]
  else []

/-- `_request_order_status`. `api` is the outcome of the `_api_get` call
(`.error` = the call raised, carrying the exception text). Mirrors the
Python control flow exactly: the local variable `order_status` was assigned
`None` before the `try` and the assignment from `_api_get` never happened
when the `except` block runs, so the `order_status and "msg" in order_status
and order_status["msg"] == "Not found"` test there is always false and the
exception is logged and re-raised; `order_status["result"]` is evaluated
outside the `try`, so a body without `"result"` raises `KeyError`. -/
def request_order_status (order : InFlightOrder)
    (api : Except String StatusEnvelope) :
    Except String OrderUpdate × List Effect :=
  match order.exchange_order_id with
  | none =>
      (.ok { new_state := .Failed,
             client_order_id := order.client_order_id,
             exchange_order_id := none,
             update_timestamp := order.creation_timestamp }, [])
  | some eoid =>
      match api with
      | .error e => (.error e, [.logError])
      | .ok (.otherEnv _) => (.error "KeyError: result", [])
      | .ok (.resultEnv r) =>
          match ORDER_STATE_MAPPING r.status with
          | none => (.error "KeyError: status", [])
          | some st =>
              (.ok { new_state := st,
                     client_order_id := order.client_order_id,
                     exchange_order_id := some eoid,
                     update_timestamp := r.updated_at }, [])

/-! ### digitra_exchange.py — _place_cancel -/

/-- One entry of the `"errors"` list of a cancel response. -/
structure CancelErr where
  field : String
  msg : String
deriving DecidableEq, Repr

/-- The `"result"` object of a cancel response (`code` is its optional
`"code"` member; `updated_at` carried parsed). -/
structure CancelResult where
  code : Option ℕ
  status : String
  updated_at : ℤ
deriving DecidableEq, Repr

/-- Body returned by `_api_delete(..., return_err=True)` for a cancel: it
either has an `"errors"` list or a `"result"` object (accessing a missing
`"result"` raises `KeyError`). -/
structure CancelResponse where
  errors : Option (List CancelErr)
  result : Option CancelResult
deriving DecidableEq, Repr

/-- The rejection message `_place_cancel` pattern-matches on. -/
def cancelRejectedAlreadyCanceledMsg : String :=
  "Order can\x27t be cancelled while in status CANCELED"

/-- `_place_cancel` given the response of the cancel call. The whole body is
wrapped in `try/except` whose handler logs the exception and returns
`False`, so every internal raise (unmatched errors, missing `"result"`,
unknown `"status"`) ends as `(false, [...logError])`. -/
def place_cancel (order : InFlightOrder) (resp : CancelResponse) :
    Bool × List Effect :=
  match resp.errors with
  | some errs =>
      if errs.any (fun e =>
          e.field == "status" && e.msg == cancelRejectedAlreadyCanceledMsg) then
        (true, [.processOrderUpdate
          { new_state := .Canceled,
            client_order_id := order.client_order_id,
            exchange_order_id := order.exchange_order_id,
            update_timestamp := order.last_update_timestamp }])
      else (false, [.logError])
  | none =>
      match resp.result with
      | none => (false, [.logError])
      | some r =>
          if r.code = some 404 then
            (true, [.processOrderNotFound order.client_order_id])
          else
            match ORDER_STATE_MAPPING r.status with
            | none => (false, [.logError])
            | some st =>
                ((st == .Canceled || st == .PendingCancel),
                 [.processOrderUpdate
                   { new_state := st,
                     client_order_id := order.client_order_id,
                     exchange_order_id := order.exchange_order_id,
                     update_timestamp := r.updated_at }])

/-! ### digitra_api_user_stream_data_source.py -/

/-- An inbound WebSocket frame already parsed to a JSON object, embedded as
an ordered association list of members with string values (`.get` is
`List.lookup`; `len(event_message) > 0` is non-emptiness). -/
abbrev Msg := List (String × String)

/-- `DigitraAPIUserStreamDataSource._process_event_message`. Returns the
messages put on the reconciler queue and the `.get("msg")` values logged at
info level, or `.error` when the handler raises (frames of type `"error"`).
Note the `queue.put_nowait(event_message)` at the end of the `if` body runs
for every non-empty frame that did not raise; the `"success"` and `"pong"`
branches fall through to it. -/
def process_event_message (m : Msg) : Except String (List Msg × List (Option String)) :=
  if m.length > 0 then
    let t := m.lookup "type"
    if t = some "error" then
      .error ("[" ++ (m.lookup "code").getD "None" ++ "] "
        ++ (m.lookup "msg").getD "None")
    else if t = some "success" then
      .ok ([m], [m.lookup "msg"])
    else
      .ok ([m], [])
  else .ok ([], [])

/-! ### digitra_api_order_book_data_source.py -/

/-- Modelled from the spec: the names of the three queues of the host base
class `OrderBookTrackerDataSource` (not under `src/`) that
`_channel_originating_message` routes into — the snapshot, diff and trade
queues of the market-data pipeline. -/
def snapshot_messages_queue_key : String := "order_book_snapshot"

/-- Modelled from the spec: the diff queue key of the host base class
(not under `src/`). -/
def diff_messages_queue_key : String := "order_book_diff"

/-- Modelled from the spec: the trade queue key of the host base class
(not under `src/`). -/
def trade_messages_queue_key : String := "trade_message"

/-- `DigitraAPIOrderBookDataSource._channel_originating_message`: the
`(channel, type)` classifier for inbound market-data frames. -/
def channel_originating_message (m : Msg) : String :=
  let channel := m.lookup "channel"
  let t := m.lookup "type"
  if t = some "subscribed" then "subscribed"
  else if t = some "pong" then "pong"
  else if t = some "update" then
    if channel = some "ticker" then "ticker"
    else if channel = some "orderbook" then snapshot_messages_queue_key
    else "unknown"
  else "unknown"

/-- `DigitraAPIOrderBookDataSource._process_message_for_unknown_channel`.
`event_message["type"]` raises `KeyError` when the member is absent;
otherwise the handler returns normally, logging only for `"pong"`. -/
def process_message_for_unknown_channel (m : Msg) : Except String (List String) :=
  match m.lookup "type" with
  | none => .error "KeyError: type"
  | some t => if "pong" = t then .ok ["OB pong received"] else .ok []

end Digitra

namespace Connector

/-- A JSON value appearing in a WebSocket request payload: the login frames
carry strings and one integer (the Foxbit nonce). -/
inductive JVal where
  | s (v : String)
  | i (v : ℤ)
deriving DecidableEq, Repr

/-- A WebSocket request payload: a JSON object as an ordered association
list with unique keys. -/
abbrev Payload := List (String × JVal)

/-- The slice of `WSRequest` the authenticators read and write. -/
structure WSReq where
  payload : Payload
deriving DecidableEq, Repr

/-- Python `dict.update(other)`: keys already present keep their position but
take the value from `other`; keys only in `other` are appended in its
order. -/
def dictUpdate (base upd : Payload) : Payload :=
  base.map (fun kv =>
    match upd.lookup kv.1 with
    | some v => (kv.1, v)
    | none => kv)
  ++ upd.filter (fun kv => (base.lookup kv.1).isNone)

end Connector

namespace Digitra

/-- The Digitra login frame `\x7b"op": "login", "key": <token>\x7d`. -/
def login_frame (token : String) : Connector.Payload :=
  [("op", .s "login"), ("key", .s token)]

/-- `DigitraAuth.ws_authenticate`: assigns the login frame as the whole
payload (`request.payload = \x7b...\x7d`), discarding whatever the caller
supplied. `token` is the result of `get_jwt`. -/
def ws_authenticate (token : String) (req : Connector.WSReq) : Connector.WSReq :=
  { req with payload := login_frame token }

end Digitra

namespace Foxbit

/-! ### foxbit_auth.py — FoxbitAuth -/

/-- The credentials a `FoxbitAuth` instance holds. -/
structure Auth where
  api_key : String
  secret_key : String
  user_id : String
deriving DecidableEq, Repr

/-- The Foxbit login frame: HMAC-signed APIKey/Signature/UserId/Nonce.
`hmacHex` abstracts `hmac.new(secret, msg, sha256).digest().hex()` and
`nowMs` the UTC-millisecond timestamp. -/
def login_frame (hmacHex : String → String → String) (auth : Auth)
    (nowMs : ℤ) : Connector.Payload :=
  let msg := toString nowMs ++ auth.user_id ++ auth.api_key
  let signature := hmacHex auth.secret_key msg
  [("APIKey", .s auth.api_key), ("Signature", .s signature),
   ("UserId", .s auth.user_id), ("Nonce", .i nowMs)]

/-- `FoxbitAuth.ws_authenticate`: builds the login frame, then runs
`payload.update(request.payload)` — merging the caller-supplied payload into
the frame with the caller's values winning on key conflicts — and assigns
the merged dict as the request payload. -/
def ws_authenticate (hmacHex : String → String → String) (auth : Auth)
    (nowMs : ℤ) (req : Connector.WSReq) : Connector.WSReq :=
  { req with payload := Connector.dictUpdate (login_frame hmacHex auth nowMs) req.payload }

/-! ### foxbit_exchange.py — _create_order -/

/-- Hummingbot order types relevant to `_create_order`. -/
inductive OrderType where
  | Limit
  | Market
  | LimitMaker
deriving DecidableEq, Repr

/-- A price argument: hummingbot passes `s_decimal_NaN` as the default and
`None` is a distinct possibility; `Decimal("NaN")` and `None` behave
differently (`is_nan()` vs `is not None`, and ordered comparison with NaN
raises `InvalidOperation`). -/
inductive Px where
  | noneP
  | nanP
  | val (p : ℚ)
deriving DecidableEq, Repr

/-- The trading-rule fields `_create_order` reads. -/
structure TradingRule where
  min_order_size : ℚ
  min_price_increment : ℚ
  min_base_amount_increment : ℚ
  min_notional_size : ℚ
deriving DecidableEq, Repr

/-- `FoxbitExchange.supported_order_types`. -/
def supported_order_types : List OrderType := [.Limit, .Market]

/-- Calls `_create_order` makes into the host framework, recorded in order:
`start_tracking_order`, `_update_order_after_failure` (modelled from the
spec: `ExchangePyBase._update_order_after_failure` is not under `src/` and
marks the order `FAILED` locally), the `_place_order` network call, and
`process_order_update`. -/
inductive CreateEffect where
  | startTracking (order_id : String) (price : Px) (amount : ℚ) (typ : OrderType)
  | updateOrderAfterFailure (order_id : String)
  | placeOrder (order_id : String) (amount : ℚ) (price : Px)
  | processOrderUpdate (order_id : String) (st : Connector.OrderState)
  | logWarn
  | logErr
deriving DecidableEq, Repr

/-- `_create_order` after the quantization block (source lines 304-358):
tracking starts, then the supported-type, minimum-size and minimum-notional
checks run (the notional check has no early return in the source), then the
`try` block calls `_place_order` (`placeOutcome` is its result, `none` = it
raised and the `except` converts the failure into a local `FAILED` state). -/
def after_quantize (rule : TradingRule) (order_id : String)
    (placeOutcome : Option String) (order_type : OrderType) (price : Px)
    (amount : ℚ) : Except String (List CreateEffect) :=
  let effs0 := [CreateEffect.startTracking order_id price amount order_type]
  if supported_order_types.contains order_type = false then
    .ok (effs0 ++ [.logErr, .updateOrderAfterFailure order_id])
  else if amount < rule.min_order_size then
    .ok (effs0 ++ [.logWarn, .updateOrderAfterFailure order_id])
  else
    match price with
    | .nanP => .error "InvalidOperation: ordered comparison with NaN"
    | .noneP =>
        match placeOutcome with
        | some _ =>
            .ok (effs0 ++ [.placeOrder order_id amount price,
                           .processOrderUpdate order_id .Open])
        | none =>
            .ok (effs0 ++ [.placeOrder order_id amount price, .logErr,
                           .updateOrderAfterFailure order_id])
    | .val p =>
        let notionalEffs :=
          if amount * p < rule.min_notional_size then
            [CreateEffect.logWarn, CreateEffect.updateOrderAfterFailure order_id]
          else []
        match placeOutcome with
        | some _ =>
            .ok (effs0 ++ notionalEffs
              ++ [.placeOrder order_id amount price,
                  .processOrderUpdate order_id .Open])
        | none =>
            .ok (effs0 ++ notionalEffs
              ++ [.placeOrder order_id amount price, .logErr,
                  .updateOrderAfterFailure order_id])

/-- `FoxbitExchange._create_order`. `qPrice` abstracts
`ExchangeBase.quantize_order_price` and `qAmount` abstracts
`ExchangeBase.quantize_order_amount` (host framework, not under `src/`; the
market-order call without a `price` argument passes the default `0`).
Quantization (source lines 296-302) runs before anything else; a `LIMIT` /
`LIMIT_MAKER` order becomes `LIMIT`, computes `quantize_amount_price` as `0`
when the quantized price is NaN (`is_nan()` on `None` raises
`AttributeError`), and quantizes the amount against it. -/
def create_order (qPrice : Px → Px) (qAmount : ℚ → ℚ → ℚ)
    (rule : TradingRule) (order_id : String) (amount0 : ℚ)
    (order_type0 : OrderType) (price0 : Px) (placeOutcome : Option String) :
    Except String (List CreateEffect) :=
  if order_type0 = OrderType.Limit ∨ order_type0 = OrderType.LimitMaker then
    match qPrice price0 with
    | .noneP => .error "AttributeError: is_nan on None"
    | .nanP =>
        after_quantize rule order_id placeOutcome .Limit .nanP (qAmount amount0 0)
    | .val p =>
        after_quantize rule order_id placeOutcome .Limit (.val p) (qAmount amount0 p)
  else
    after_quantize rule order_id placeOutcome order_type0 price0 (qAmount amount0 0)

/-- The price `_create_order` submits: the quantized price for limit-ish
orders, the caller's price otherwise (source lines 296-302). -/
def quantizedPrice (qPrice : Px → Px) (order_type0 : OrderType) (price0 : Px) : Px :=
  if order_type0 = OrderType.Limit ∨ order_type0 = OrderType.LimitMaker then
    qPrice price0
  else price0

/-- The amount `_create_order` submits: quantized against the quantized
price (0 when that price is NaN) for limit-ish orders, against the default 0
otherwise (source lines 296-302). -/
def quantizedAmount (qPrice : Px → Px) (qAmount : ℚ → ℚ → ℚ)
    (order_type0 : OrderType) (amount0 : ℚ) (price0 : Px) : ℚ :=
  if order_type0 = OrderType.Limit ∨ order_type0 = OrderType.LimitMaker then
    match qPrice price0 with
    | .noneP => qAmount amount0 0
    | .nanP => qAmount amount0 0
    | .val p => qAmount amount0 p
  else qAmount amount0 0

end Foxbit

/-- Sample in-flight order with one already-recorded fill of base amount 1. -/
def c1Order : Digitra.InFlightOrder :=
  { client_order_id := "HB_1",
    exchange_order_id := some "42",
    trading_pair := "BTC-USD",
    creation_timestamp := 0,
    last_update_timestamp := 0,
    order_fills := [{ trade_id := "42-0",
                      fill_base_amount := 1,
                      fill_quote_amount := 10,
                      fill_price := 10,
                      fill_timestamp := 0 }] }

/-- Sample WebSocket order-update event: cumulative filled amount 2 against
the order above (delta 1). -/
def c1Data : Digitra.WsOrderData :=
  { id := "42", filledSize := 2, avgFillPrice := 10, createdAt := 3,
    status := "PARTIALLY_FILLED" }

/-- Sample REST order-status result with the same cumulative filled amount 2. -/
def c1Status : Digitra.OrderStatusResult :=
  { id := "42", custom_id := "HB_1", status := "PARTIALLY_FILLED",
    filled := 2, filled_weighted_price := 10, fee := 0, updated_at := 3 }

/-- The exception text `_api_get` raises for an order-status query the
exchange answers with a not-found body. -/
def c3ApiError : String :=
  "IOError: HTTP status is 404. Error: \x7b\"msg\": \"Not found\"\x7d"

/-- Claim C10: for every path string and every domain, `public_rest_url` and
`private_rest_url` return the identical result (URL, or the same failure),
because the public and private API version segments are both "v1": the two
URL builders are extensionally equal functions. -/
theorem public_private_rest_url_eq (path domain : String) :
    Digitra.public_rest_url path domain = Digitra.private_rest_url path domain := rfl

/-- Claim C8: `get_jwt` returns the stored token unchanged when its decoded
expiry is later than the current time; when the token is expired and no
refresh token is present it raises (state unchanged, no round-trip); a
refresh round-trip is issued only when the token is expired and a refresh
token is present. -/
theorem get_jwt_cases (now : ℤ) (fresh : Digitra.Jwt) (st : Digitra.AuthState) :
    (now < st.jwt.exp →
       Digitra.ensure_valid_jwt now fresh st = .ok (st.jwt, st, 0))
    ∧ (st.jwt.exp ≤ now → st.refresh_token = none →
       Digitra.ensure_valid_jwt now fresh st =
         .error "JWT is expired and no refresh_token has been provided")
    ∧ (∀ tok st' k, Digitra.ensure_valid_jwt now fresh st = .ok (tok, st', k) →
         0 < k → st.jwt.exp ≤ now ∧ st.refresh_token ≠ none) := by
  refine ⟨?_, ?_, ?_⟩
  · intro h
    simp [Digitra.ensure_valid_jwt, h]
  · intro h hrt
    simp [Digitra.ensure_valid_jwt, not_lt.mpr h, hrt]
  · intro tok st' k hok hk
    by_cases h : now < st.jwt.exp
    · simp [Digitra.ensure_valid_jwt, h] at hok
      omega
    · refine ⟨le_of_not_lt h, ?_⟩
      cases hrt : st.refresh_token with
      | none => simp [Digitra.ensure_valid_jwt, h, hrt] at hok
      | some r => simp

/-- Witness for `get_jwt_cases` at concrete credential states: a live token is
returned unchanged, an expired token without refresh token raises, and the
refresh case has an expired token with a refresh token present. -/
theorem get_jwt_cases_witness :
    Digitra.ensure_valid_jwt 5 ⟨"f", 100, "c"⟩ ⟨⟨"a", 10, "c"⟩, none⟩ =
      .ok (⟨"a", 10, "c"⟩, ⟨⟨"a", 10, "c"⟩, none⟩, 0)
    ∧ Digitra.ensure_valid_jwt 5 ⟨"f", 100, "c"⟩ ⟨⟨"b", 0, "c"⟩, none⟩ =
      .error "JWT is expired and no refresh_token has been provided"
    ∧ ((⟨⟨"c", 0, "c"⟩, some "r"⟩ : Digitra.AuthState).jwt.exp ≤ 5
        ∧ (⟨⟨"c", 0, "c"⟩, some "r"⟩ : Digitra.AuthState).refresh_token ≠ none) :=
  ⟨(get_jwt_cases 5 ⟨"f", 100, "c"⟩ ⟨⟨"a", 10, "c"⟩, none⟩).1 (by decide),
   (get_jwt_cases 5 ⟨"f", 100, "c"⟩ ⟨⟨"b", 0, "c"⟩, none⟩).2.1 (by decide) rfl,
   (get_jwt_cases 5 ⟨"f", 100, "c"⟩ ⟨⟨"c", 0, "c"⟩, some "r"⟩).2.2
     ⟨"f", 100, "c"⟩ ⟨⟨"f", 100, "c"⟩, some "r"⟩ 1 rfl (by decide)⟩

/-- Counterexample to claim C2: two concurrent `get_jwt` callers that both
run the expiry check before either refresh response arrives issue two refresh
round-trips, not one — `DigitraAuth.__ensure_valid_jwt` takes no lock and is
not single-flight. -/
theorem get_jwt_concurrent_two_refreshes :
    (Digitra.runConcurrentGetJwt 5 ⟨"f", 100, "c"⟩ 2
        ⟨⟨⟨"a", 0, "c"⟩, some "r"⟩, 0⟩).1.refreshes = 2
    ∧ (2 : ℕ) ≠ 1 := by
  constructor
  · rfl
  · decide

/-- Helper: a block of expired-token expiry checks each issues a refresh and
suspends; the credential state is untouched until a response arrives. -/
theorem runPhase_start_expired (now : ℤ) (fresh : Digitra.Jwt)
    (w : Digitra.World) (r : String) (n : ℕ)
    (h1 : w.auth.jwt.exp ≤ now) (h2 : w.auth.refresh_token = some r) :
    Digitra.runPhase now fresh w (List.replicate n .start) =
      ({ w with refreshes := w.refreshes + n },
       List.replicate n .awaitingRefresh) := by
  induction n generalizing w with
  | zero => simp [Digitra.runPhase]
  | succ n ih =>
      have hstep : Digitra.jwtStep now fresh w .start
          = ({ w with refreshes := w.refreshes + 1 }, .awaitingRefresh) := by
        simp [Digitra.jwtStep, not_lt.mpr h1, h2]
      rw [List.replicate_succ]
      simp only [Digitra.runPhase, hstep]
      rw [ih { w with refreshes := w.refreshes + 1 } h1 h2]
      have harith : w.refreshes + 1 + n = w.refreshes + (n + 1) := by omega
      simp [List.replicate_succ, harith]

/-- Helper: resuming a block of callers suspended in the refresh round-trip
stores the fresh token for each and completes them all with that token,
issuing no further round-trips. -/
theorem runPhase_awaiting (now : ℤ) (fresh : Digitra.Jwt)
    (w : Digitra.World) (n : ℕ) :
    (Digitra.runPhase now fresh w (List.replicate n .awaitingRefresh)).1.refreshes
        = w.refreshes
    ∧ (Digitra.runPhase now fresh w (List.replicate n .awaitingRefresh)).2
        = List.replicate n (.doneOk fresh) := by
  induction n generalizing w with
  | zero => simp [Digitra.runPhase]
  | succ n ih =>
      rw [List.replicate_succ]
      simp only [Digitra.runPhase, Digitra.jwtStep]
      refine ⟨(ih _).1, ?_⟩
      rw [List.replicate_succ]
      simp [(ih _).2]

/-- Claim C2 amended: credential refresh is not single-flight — there is no
lock in `DigitraAuth.__ensure_valid_jwt`, so each of `n` concurrent `get_jwt`
callers that observes the expired token before any refresh completes issues
its own refresh round-trip (`n` round-trips in total); each caller does end
up with the fresh token its own refresh produced. -/
theorem get_jwt_refresh_fanout (now : ℤ) (fresh : Digitra.Jwt)
    (w : Digitra.World) (n : ℕ) (r : String)
    (h1 : w.auth.jwt.exp ≤ now) (h2 : w.auth.refresh_token = some r) :
    (Digitra.runConcurrentGetJwt now fresh n w).1.refreshes = w.refreshes + n
    ∧ (Digitra.runConcurrentGetJwt now fresh n w).2
        = List.replicate n (.doneOk fresh) := by
  unfold Digitra.runConcurrentGetJwt
  rw [runPhase_start_expired now fresh w r n h1 h2]
  exact runPhase_awaiting now fresh _ n

/-- Witness for `get_jwt_refresh_fanout`: three concurrent callers against a
concrete expired credential state issue three refresh round-trips. -/
theorem get_jwt_refresh_fanout_witness :
    (Digitra.runConcurrentGetJwt 5 ⟨"f", 100, "c"⟩ 3
        ⟨⟨⟨"a", 0, "c"⟩, some "r"⟩, 0⟩).1.refreshes = 0 + 3
    ∧ (Digitra.runConcurrentGetJwt 5 ⟨"f", 100, "c"⟩ 3
        ⟨⟨⟨"a", 0, "c"⟩, some "r"⟩, 0⟩).2
        = List.replicate 3 (.doneOk ⟨"f", 100, "c"⟩) :=
  get_jwt_refresh_fanout 5 ⟨"f", 100, "c"⟩ ⟨⟨⟨"a", 0, "c"⟩, some "r"⟩, 0⟩ 3 "r"
    (by decide) rfl

/-- Claim C1 (code defect, at the failing input): for an order with one
recorded fill of base amount 1 and a WebSocket order-update whose cumulative
filled amount is 2, `_user_stream_event_listener` synthesizes exactly one
fill, but its `fill_base_amount` is the cumulative total 2, not the delta 1 —
even though its own guard computed the positive delta and the REST-poll twin
`_all_trade_updates_for_order` records the delta for the same numbers. -/
theorem ws_fill_records_cumulative_not_delta :
    (Digitra.user_stream_order_update c1Order c1Data 7).1.map
        (fun t => t.fill_base_amount) = [2]
    ∧ c1Data.filledSize - Digitra.inFlightFilledAmount c1Order.order_fills = 1
    ∧ (2 : ℚ) ≠ 1
    ∧ (Digitra.all_trade_updates_for_order c1Order c1Status 7).map
        (fun t => t.fill_base_amount) = [1] := by
  refine ⟨?_, ?_, by norm_num, ?_⟩
  · norm_num [Digitra.user_stream_order_update, c1Order, c1Data,
      Digitra.inFlightFilledAmount]
  · norm_num [c1Order, c1Data, Digitra.inFlightFilledAmount]
  · norm_num [Digitra.all_trade_updates_for_order, c1Order, c1Status,
      Digitra.inFlightFilledAmount]

/-- Claim C3 (code defect, at the failing input): when the order-status query
raises with a not-found response, `_request_order_status` re-raises the
exception after logging it — the `"Not found"` branch never runs because the
local `order_status` is still `None` inside the `except` block — so no
`FAILED` order update is returned and `process_order_not_found` is never
invoked. -/
theorem request_order_status_not_found_reraises :
    Digitra.request_order_status c1Order (.error c3ApiError)
      = (.error c3ApiError, [.logError])
    ∧ (∀ u : Digitra.OrderUpdate,
        (Digitra.request_order_status c1Order (.error c3ApiError)).1 ≠ .ok u)
    ∧ (∀ cid : String,
        Digitra.Effect.processOrderNotFound cid
          ∉ (Digitra.request_order_status c1Order (.error c3ApiError)).2) := by
  refine ⟨rfl, fun u h => Except.noConfusion h, fun cid h => ?_⟩
  rw [show (Digitra.request_order_status c1Order (.error c3ApiError)).2
        = [Digitra.Effect.logError] from rfl] at h
  simp at h

/-- Claim C4: a cancel response whose `"errors"` list contains an entry with
field `"status"` and the already-canceled rejection message makes
`_place_cancel` process a `CANCELED` order update and return `True`; a cancel
rejection with any other error content returns `False` (after logging the
re-raised errors), never a successful cancel. -/
theorem place_cancel_already_canceled (order : Digitra.InFlightOrder)
    (resp : Digitra.CancelResponse) (errs : List Digitra.CancelErr)
    (he : resp.errors = some errs) :
    ((∃ e ∈ errs, e.field = "status"
        ∧ e.msg = Digitra.cancelRejectedAlreadyCanceledMsg) →
      Digitra.place_cancel order resp =
        (true, [.processOrderUpdate
          { new_state := .Canceled,
            client_order_id := order.client_order_id,
            exchange_order_id := order.exchange_order_id,
            update_timestamp := order.last_update_timestamp }]))
    ∧ ((∀ e ∈ errs, ¬(e.field = "status"
        ∧ e.msg = Digitra.cancelRejectedAlreadyCanceledMsg)) →
      Digitra.place_cancel order resp = (false, [.logError])) := by
  constructor
  · intro hex
    have hany : errs.any (fun e =>
        e.field == "status" && e.msg == Digitra.cancelRejectedAlreadyCanceledMsg)
        = true := by
      rw [List.any_eq_true]
      obtain ⟨e, he1, he2, he3⟩ := hex
      exact ⟨e, he1, by simp [he2, he3]⟩
    simp [Digitra.place_cancel, he, hany]
  · intro hall
    have hany : errs.any (fun e =>
        e.field == "status" && e.msg == Digitra.cancelRejectedAlreadyCanceledMsg)
        = false := by
      rw [List.any_eq_false]
      intro e heM
      simp only [Bool.and_eq_true, beq_iff_eq, not_and]
      intro h1 h2
      exact hall e heM ⟨h1, h2⟩
    simp [Digitra.place_cancel, he, hany]

/-- Witness for `place_cancel_already_canceled`: a concrete response carrying
exactly the already-canceled rejection yields a successful cancel, and a
concrete response with a different error message yields `False`. -/
theorem place_cancel_already_canceled_witness :
    Digitra.place_cancel c1Order
        ⟨some [⟨"status", Digitra.cancelRejectedAlreadyCanceledMsg⟩], none⟩ =
      (true, [.processOrderUpdate
        { new_state := .Canceled,
          client_order_id := c1Order.client_order_id,
          exchange_order_id := c1Order.exchange_order_id,
          update_timestamp := c1Order.last_update_timestamp }])
    ∧ Digitra.place_cancel c1Order
        ⟨some [⟨"status", "Order not active"⟩], none⟩ = (false, [.logError]) :=
  ⟨(place_cancel_already_canceled c1Order
      ⟨some [⟨"status", Digitra.cancelRejectedAlreadyCanceledMsg⟩], none⟩
      [⟨"status", Digitra.cancelRejectedAlreadyCanceledMsg⟩] rfl).1
      ⟨⟨"status", Digitra.cancelRejectedAlreadyCanceledMsg⟩, by simp, rfl, rfl⟩,
   (place_cancel_already_canceled c1Order
      ⟨some [⟨"status", "Order not active"⟩], none⟩
      [⟨"status", "Order not active"⟩] rfl).2
      (by intro e heM hc
          simp at heM
          rw [heM] at hc
          exact absurd hc.2 (by decide))⟩

/-- Counterexample to claim C6: a `pong` frame is not discarded —
`_process_event_message` falls through to `queue.put_nowait`, so the pong is
placed on the reconciler queue. -/
theorem process_event_message_pong_queued :
    Digitra.process_event_message [("type", "pong")]
      = .ok ([[("type", "pong")]], [])
    ∧ ([[("type", "pong")]] : List Digitra.Msg) ≠ [] := by
  refine ⟨rfl, by decide⟩

/-- Claim C6 amended: an empty message body queues nothing; a frame of type
`error` raises (and is not queued); a frame of type `success` is logged and
still queued; every other non-empty frame — `pong` included — is placed on
the reconciler queue. -/
theorem process_event_message_routing (m : Digitra.Msg) :
    (m = [] → Digitra.process_event_message m = .ok ([], []))
    ∧ (m ≠ [] → m.lookup "type" = some "error" →
        ∃ s, Digitra.process_event_message m = .error s)
    ∧ (m ≠ [] → m.lookup "type" = some "success" →
        Digitra.process_event_message m = .ok ([m], [m.lookup "msg"]))
    ∧ (m ≠ [] → m.lookup "type" ≠ some "error" →
        m.lookup "type" ≠ some "success" →
        Digitra.process_event_message m = .ok ([m], [])) := by
  refine ⟨?_, ?_, ?_, ?_⟩
  · intro h
    simp [Digitra.process_event_message, h]
  · intro h1 h2
    have hp : 0 < m.length := List.length_pos.mpr h1
    exact ⟨"[" ++ (m.lookup "code").getD "None" ++ "] "
        ++ (m.lookup "msg").getD "None",
      by simp [Digitra.process_event_message, hp, h2]⟩
  · intro h1 h2
    have hp : 0 < m.length := List.length_pos.mpr h1
    simp [Digitra.process_event_message, hp, h2]
  · intro h1 h2 h3
    have hp : 0 < m.length := List.length_pos.mpr h1
    simp [Digitra.process_event_message, hp, h2, h3]

/-- Witness for `process_event_message_routing` at concrete frames: empty,
error, success, and a plain order-update frame. -/
theorem process_event_message_routing_witness :
    Digitra.process_event_message [] = .ok ([], [])
    ∧ (∃ s, Digitra.process_event_message [("type", "error"), ("code", "7")]
        = .error s)
    ∧ Digitra.process_event_message [("type", "success"), ("msg", "hi")]
        = .ok ([[("type", "success"), ("msg", "hi")]], [some "hi"])
    ∧ Digitra.process_event_message [("type", "update"), ("channel", "orders")]
        = .ok ([[("type", "update"), ("channel", "orders")]], []) :=
  ⟨(process_event_message_routing []).1 rfl,
   (process_event_message_routing [("type", "error"), ("code", "7")]).2.1
     (by decide) rfl,
   (process_event_message_routing [("type", "success"), ("msg", "hi")]).2.2.1
     (by decide) rfl,
   (process_event_message_routing [("type", "update"), ("channel", "orders")]).2.2.2
     (by decide) (by decide) (by decide)⟩

/-- Counterexample to claim C9: the classifier routes a `(ticker, update)`
frame to `"ticker"`, not `"unknown"`, and the unknown-channel handler raises
`KeyError` on a message with no `"type"` member instead of returning. -/
theorem channel_classifier_ticker_not_unknown :
    Digitra.channel_originating_message [("channel", "ticker"), ("type", "update")]
      = "ticker"
    ∧ ("ticker" : String) ≠ "unknown"
    ∧ Digitra.process_message_for_unknown_channel ([] : Digitra.Msg)
      = .error "KeyError: type" := by
  refine ⟨rfl, by decide, rfl⟩

/-- Claim C9 amended: the classifier routes `(orderbook, update)` frames to
the snapshot queue (never the diff or trade queues), `(ticker, update)`
frames to `"ticker"`, `subscribed` and `pong` frames to their own keys, and
everything else to `"unknown"`; the unknown-channel handler returns without
raising for every message that has a `"type"` member (recognizing only
`pong`), and raises `KeyError` otherwise. -/
theorem channel_classifier_routing (m : Digitra.Msg) :
    (m.lookup "type" = some "subscribed" →
      Digitra.channel_originating_message m = "subscribed")
    ∧ (m.lookup "type" = some "pong" →
      Digitra.channel_originating_message m = "pong")
    ∧ (m.lookup "type" = some "update" → m.lookup "channel" = some "orderbook" →
      Digitra.channel_originating_message m = Digitra.snapshot_messages_queue_key
      ∧ Digitra.snapshot_messages_queue_key ≠ Digitra.diff_messages_queue_key
      ∧ Digitra.snapshot_messages_queue_key ≠ Digitra.trade_messages_queue_key)
    ∧ (m.lookup "type" = some "update" → m.lookup "channel" = some "ticker" →
      Digitra.channel_originating_message m = "ticker")
    ∧ (m.lookup "type" = some "update" → m.lookup "channel" ≠ some "ticker" →
      m.lookup "channel" ≠ some "orderbook" →
      Digitra.channel_originating_message m = "unknown")
    ∧ ((∀ s, m.lookup "type" = some s →
        s ≠ "subscribed" ∧ s ≠ "pong" ∧ s ≠ "update") →
      Digitra.channel_originating_message m = "unknown")
    ∧ (∀ ty, m.lookup "type" = some ty →
      ∃ logs, Digitra.process_message_for_unknown_channel m = .ok logs) := by
  refine ⟨?_, ?_, ?_, ?_, ?_, ?_, ?_⟩
  · intro h
    simp [Digitra.channel_originating_message, h]
  · intro h
    simp [Digitra.channel_originating_message, h]
  · intro h1 h2
    refine ⟨by simp [Digitra.channel_originating_message, h1, h2], by decide, by decide⟩
  · intro h1 h2
    simp [Digitra.channel_originating_message, h1, h2]
  · intro h1 h2 h3
    simp [Digitra.channel_originating_message, h1, h2, h3]
  · intro hall
    cases h : m.lookup "type" with
    | none => simp [Digitra.channel_originating_message, h]
    | some s =>
        obtain ⟨hs1, hs2, hs3⟩ := hall s h
        simp [Digitra.channel_originating_message, h, hs1, hs2, hs3]
  · intro ty hty
    by_cases hp : "pong" = ty
    · exact ⟨["OB pong received"],
        by simp [Digitra.process_message_for_unknown_channel, hty, hp]⟩
    · exact ⟨[],
        by simp [Digitra.process_message_for_unknown_channel, hty, hp]⟩

/-- Witness for `channel_classifier_routing` at concrete frames: subscribed,
pong, orderbook update, ticker update, an unknown combination, and the
unknown handler on a frame carrying a `"type"` member. -/
theorem channel_classifier_routing_witness :
    Digitra.channel_originating_message [("type", "subscribed")] = "subscribed"
    ∧ Digitra.channel_originating_message [("type", "pong")] = "pong"
    ∧ (Digitra.channel_originating_message
        [("channel", "orderbook"), ("type", "update")]
        = Digitra.snapshot_messages_queue_key
      ∧ Digitra.snapshot_messages_queue_key ≠ Digitra.diff_messages_queue_key
      ∧ Digitra.snapshot_messages_queue_key ≠ Digitra.trade_messages_queue_key)
    ∧ Digitra.channel_originating_message
        [("channel", "ticker"), ("type", "update")] = "ticker"
    ∧ Digitra.channel_originating_message
        [("channel", "trades"), ("type", "update")] = "unknown"
    ∧ Digitra.channel_originating_message [("type", "oops")] = "unknown"
    ∧ (∃ logs, Digitra.process_message_for_unknown_channel
        [("type", "oops")] = .ok logs) :=
  ⟨(channel_classifier_routing [("type", "subscribed")]).1 rfl,
   (channel_classifier_routing [("type", "pong")]).2.1 rfl,
   (channel_classifier_routing [("channel", "orderbook"), ("type", "update")]).2.2.1
     rfl rfl,
   (channel_classifier_routing [("channel", "ticker"), ("type", "update")]).2.2.2.1
     rfl rfl,
   (channel_classifier_routing [("channel", "trades"), ("type", "update")]).2.2.2.2.1
     rfl (by decide) (by decide),
   (channel_classifier_routing [("type", "oops")]).2.2.2.2.2.1
     (by intro s hs
         simp [List.lookup] at hs
         subst hs
         exact ⟨by decide, by decide, by decide⟩),
   (channel_classifier_routing [("type", "oops")]).2.2.2.2.2.2 "oops" rfl⟩

/-- Counterexample to claim C5: in `FoxbitAuth.ws_authenticate` the
caller-supplied payload wins over the login frame — a request already
carrying an `APIKey` member keeps the caller's value, so the returned
payload is not the login frame. -/
theorem foxbit_ws_login_overridden_by_caller :
    (Foxbit.ws_authenticate (fun _ _ => "sig") ⟨"k1", "sec", "u1"⟩ 1000
        ⟨[("APIKey", .s "attacker")]⟩).payload
      ≠ Foxbit.login_frame (fun _ _ => "sig") ⟨"k1", "sec", "u1"⟩ 1000
    ∧ ((Foxbit.ws_authenticate (fun _ _ => "sig") ⟨"k1", "sec", "u1"⟩ 1000
        ⟨[("APIKey", .s "attacker")]⟩).payload.lookup "APIKey"
      = some (.s "attacker")) := by
  refine ⟨by decide, by decide⟩

/-- Helper: Python `dict.update` with an empty other dict is the identity. -/
theorem dictUpdate_nil (base : Connector.Payload) :
    Connector.dictUpdate base [] = base := by
  unfold Connector.dictUpdate
  simp

/-- Claim C5 amended: `DigitraAuth.ws_authenticate` replaces the payload with
exactly the login frame regardless of what the caller supplied; Foxbit's
`ws_authenticate` instead merges the login frame with the caller payload and
caller-supplied fields win on key conflicts (`payload.update(request.payload)`),
so its result is exactly the login frame only when the caller payload is
empty. -/
theorem ws_authenticate_frames (token : String) (req : Connector.WSReq)
    (hmacHex : String → String → String) (auth : Foxbit.Auth) (nowMs : ℤ) :
    (Digitra.ws_authenticate token req).payload = Digitra.login_frame token
    ∧ (Foxbit.ws_authenticate hmacHex auth nowMs req).payload
        = Connector.dictUpdate (Foxbit.login_frame hmacHex auth nowMs) req.payload
    ∧ (req.payload = [] →
        (Foxbit.ws_authenticate hmacHex auth nowMs req).payload
          = Foxbit.login_frame hmacHex auth nowMs) := by
  refine ⟨rfl, rfl, ?_⟩
  intro h
  show Connector.dictUpdate (Foxbit.login_frame hmacHex auth nowMs) req.payload = _
  rw [h, dictUpdate_nil]

/-- Witness for `ws_authenticate_frames`: Digitra discards a concrete junk
payload; Foxbit applied to an empty request yields exactly the login frame. -/
theorem ws_authenticate_frames_witness :
    (Digitra.ws_authenticate "tok" ⟨[("op", .s "junk")]⟩).payload
      = Digitra.login_frame "tok"
    ∧ (Foxbit.ws_authenticate (fun _ _ => "sig") ⟨"k1", "sec", "u1"⟩ 7
        ⟨[]⟩).payload
      = Foxbit.login_frame (fun _ _ => "sig") ⟨"k1", "sec", "u1"⟩ 7 :=
  ⟨(ws_authenticate_frames "tok" ⟨[("op", .s "junk")]⟩ (fun _ _ => "sig")
      ⟨"k1", "sec", "u1"⟩ 7).1,
   (ws_authenticate_frames "tok" ⟨[]⟩ (fun _ _ => "sig")
      ⟨"k1", "sec", "u1"⟩ 7).2.2 rfl⟩

/-- Helper: whatever branch the post-quantization part of `_create_order`
takes, an amount below the minimum order size means a local failure and no
`_place_order` call, and any `_place_order` call carries exactly the amount
and price this part was entered with. -/
theorem after_quantize_spec (rule : Foxbit.TradingRule) (order_id : String)
    (placeOutcome : Option String) (ot : Foxbit.OrderType) (price : Foxbit.Px)
    (amount : ℚ) (effs : List Foxbit.CreateEffect)
    (h : Foxbit.after_quantize rule order_id placeOutcome ot price amount
      = .ok effs) :
    (amount < rule.min_order_size →
      Foxbit.CreateEffect.updateOrderAfterFailure order_id ∈ effs
      ∧ ∀ a p, Foxbit.CreateEffect.placeOrder order_id a p ∉ effs)
    ∧ (∀ a p, Foxbit.CreateEffect.placeOrder order_id a p ∈ effs →
        a = amount ∧ p = price) := by
  unfold Foxbit.after_quantize at h
  by_cases hsupp : Foxbit.supported_order_types.contains ot = false
  · rw [if_pos hsupp] at h
    injection h with h
    subst h
    refine ⟨fun _ => ⟨by simp, ?_⟩, ?_⟩
    · intro a p
      simp
    · intro a p hp
      simp at hp
  · rw [if_neg hsupp] at h
    by_cases hmin : amount < rule.min_order_size
    · rw [if_pos hmin] at h
      injection h with h
      subst h
      refine ⟨fun _ => ⟨by simp, ?_⟩, ?_⟩
      · intro a p
        simp
      · intro a p hp
        simp at hp
    · rw [if_neg hmin] at h
      refine ⟨fun hc => absurd hc hmin, ?_⟩
      intro a p hp
      cases price with
      | nanP => simp at h
      | noneP =>
          cases placeOutcome with
          | some eoid =>
              injection h with h
              subst h
              simp at hp
              rcases hp with ⟨h1, h2⟩
              exact ⟨h1, h2⟩
          | none =>
              injection h with h
              subst h
              simp at hp
              rcases hp with ⟨h1, h2⟩
              exact ⟨h1, h2⟩
      | val p' =>
          by_cases hnot : amount * p' < rule.min_notional_size
          · simp only [if_pos hnot] at h
            cases placeOutcome with
            | some eoid =>
                injection h with h
                subst h
                simp at hp
                rcases hp with ⟨h1, h2⟩
                exact ⟨h1, h2⟩
            | none =>
                injection h with h
                subst h
                simp at hp
                rcases hp with ⟨h1, h2⟩
                exact ⟨h1, h2⟩
          · simp only [if_neg hnot] at h
            cases placeOutcome with
            | some eoid =>
                injection h with h
                subst h
                simp at hp
                rcases hp with ⟨h1, h2⟩
                exact ⟨h1, h2⟩
            | none =>
                injection h with h
                subst h
                simp at hp
                rcases hp with ⟨h1, h2⟩
                exact ⟨h1, h2⟩

/-- Claim C7: whenever `_create_order` completes without an escaping
exception, an order whose quantized amount is below the trading rule's
`min_order_size` gets `_update_order_after_failure` (local `FAILED`) and
`_place_order` is never invoked for it; and any `_place_order` call that
does happen carries exactly the quantized amount and quantized price, so
quantization precedes every submission. -/
theorem create_order_below_min_no_network (qPrice : Foxbit.Px → Foxbit.Px)
    (qAmount : ℚ → ℚ → ℚ) (rule : Foxbit.TradingRule) (order_id : String)
    (amount0 : ℚ) (order_type0 : Foxbit.OrderType) (price0 : Foxbit.Px)
    (placeOutcome : Option String) (effs : List Foxbit.CreateEffect)
    (hrun : Foxbit.create_order qPrice qAmount rule order_id amount0
      order_type0 price0 placeOutcome = .ok effs) :
    (Foxbit.quantizedAmount qPrice qAmount order_type0 amount0 price0
        < rule.min_order_size →
      Foxbit.CreateEffect.updateOrderAfterFailure order_id ∈ effs
      ∧ ∀ a p, Foxbit.CreateEffect.placeOrder order_id a p ∉ effs)
    ∧ (∀ a p, Foxbit.CreateEffect.placeOrder order_id a p ∈ effs →
        a = Foxbit.quantizedAmount qPrice qAmount order_type0 amount0 price0
        ∧ p = Foxbit.quantizedPrice qPrice order_type0 price0) := by
  unfold Foxbit.create_order at hrun
  by_cases hlim : order_type0 = Foxbit.OrderType.Limit
      ∨ order_type0 = Foxbit.OrderType.LimitMaker
  · rw [if_pos hlim] at hrun
    cases hq : qPrice price0 with
    | noneP =>
        rw [hq] at hrun
        simp at hrun
    | nanP =>
        rw [hq] at hrun
        have e1 : Foxbit.quantizedAmount qPrice qAmount order_type0 amount0 price0
            = qAmount amount0 0 := by
          unfold Foxbit.quantizedAmount
          rw [if_pos hlim, hq]
        have e2 : Foxbit.quantizedPrice qPrice order_type0 price0 = .nanP := by
          unfold Foxbit.quantizedPrice
          rw [if_pos hlim, hq]
        rw [e1, e2]
        exact after_quantize_spec rule order_id placeOutcome .Limit .nanP
          (qAmount amount0 0) effs hrun
    | val p' =>
        rw [hq] at hrun
        have e1 : Foxbit.quantizedAmount qPrice qAmount order_type0 amount0 price0
            = qAmount amount0 p' := by
          unfold Foxbit.quantizedAmount
          rw [if_pos hlim, hq]
        have e2 : Foxbit.quantizedPrice qPrice order_type0 price0 = .val p' := by
          unfold Foxbit.quantizedPrice
          rw [if_pos hlim, hq]
        rw [e1, e2]
        exact after_quantize_spec rule order_id placeOutcome .Limit (.val p')
          (qAmount amount0 p') effs hrun
  · rw [if_neg hlim] at hrun
    have e1 : Foxbit.quantizedAmount qPrice qAmount order_type0 amount0 price0
        = qAmount amount0 0 := by
      unfold Foxbit.quantizedAmount
      rw [if_neg hlim]
    have e2 : Foxbit.quantizedPrice qPrice order_type0 price0 = price0 := by
      unfold Foxbit.quantizedPrice
      rw [if_neg hlim]
    rw [e1, e2]
    exact after_quantize_spec rule order_id placeOutcome order_type0 price0
      (qAmount amount0 0) effs hrun

/-- Witness for `create_order_below_min_no_network`: a concrete limit order
of quantized amount 3 against a minimum order size of 5 fails locally and
never reaches `_place_order`. -/
theorem create_order_below_min_no_network_witness :
    Foxbit.CreateEffect.updateOrderAfterFailure "HB_1"
      ∈ [Foxbit.CreateEffect.startTracking "HB_1" (.val 10) 3 .Limit,
         Foxbit.CreateEffect.logWarn,
         Foxbit.CreateEffect.updateOrderAfterFailure "HB_1"]
    ∧ ∀ a p, Foxbit.CreateEffect.placeOrder "HB_1" a p
      ∉ [Foxbit.CreateEffect.startTracking "HB_1" (.val 10) 3 .Limit,
         Foxbit.CreateEffect.logWarn,
         Foxbit.CreateEffect.updateOrderAfterFailure "HB_1"] :=
  (create_order_below_min_no_network (fun x => x) (fun a _ => a) ⟨5, 1, 1, 0⟩
      "HB_1" 3 .Limit (.val 10) (some "e1") _ rfl).1
    (by norm_num [Foxbit.quantizedAmount])
